/-
Verification of the real-time trade stream processing engine
(backend/app: alert_engine.py, strategy_detector.py, main.py,
analytics_engine.py, config.py) against its specification.

Shallow embedding conventions:
* Python floats for money, rates and epoch timestamps are modelled as ℚ;
  the comparisons performed by the code are exact on the values the
  claims are about, and the code does no float-specific operation.
* `datetime` values are epoch seconds as ℚ (`.replace(tzinfo=None)` is
  the identity in this model).
* Python dicts are association lists with in-place update semantics and
  insertion-ordered iteration; Python sets of ids are lists of distinct
  ids with first-occurrence iteration order (one deterministic order
  among those a Python set may exhibit).
* `uuid.uuid4()`-based fresh identifiers are modelled by a counter in
  the state; the code only uses them as fresh dictionary keys.
* The external exchange-rate lookup (ExchangeRateCache.get_rate, an
  HTTP fetch with a TTL cache) is modelled as an oracle
  `rates : String → Option ℚ`, per currency, as the core consumes it.
* Alert callbacks are out of scope; an emitted alert is the `some`
  result of the processing function.  `alert_id` (random uuid) and the
  formatted `message` are not modelled; all fields the claims mention
  are.
* Uncaught Python exceptions (the detector's KeyError at
  strategy_detector.py line 205, and pydantic's ValueError on assigning
  the undeclared `instrument_pair` field at lines 127 and 215) abort
  the call; the mutations made before the raise persist in the
  long-lived detector object.  Detector operations therefore return
  the (possibly partially mutated) state together with either their
  normal result or the exception.
-/
import Mathlib

set_option maxRecDepth 8000

namespace PublicTrade

/-- Trade record (models.py `Trade`), restricted to the fields the core
logic reads.  `execution_timestamp` is epoch seconds. -/
structure Trade where
  dissemination_identifier : String
  action_type : String
  execution_timestamp : ℚ
  expiration_date : Option String
  notional_amount_leg1 : ℚ
  notional_amount_leg2 : ℚ
  notional_currency_leg1 : String
  notional_currency_leg2 : String
  unique_product_identifier_underlier_name : Option String
  package_indicator : Bool
  package_transaction_price : Option String
  notional_eur : Option ℚ
  instrument : Option String
  deriving DecidableEq, Repr

/-- Strategy record, exactly the fields models.py `Strategy` declares.
The detector passes extra `instrument_pair` / `instrument_legs`
keyword arguments to the constructor, which pydantic silently discards
(`Strategy` has no `Config` so the default `extra` handling ignores
them), and later *assigns* those attributes on existing objects, which
pydantic rejects with `ValueError` — see the detector embedding. -/
structure Strategy where
  strategy_id : String
  strategy_type : String
  underlying_name : String
  legs : List String
  total_notional_eur : ℚ
  execution_start : ℚ
  execution_end : ℚ
  package_transaction_price : Option String
  deriving DecidableEq, Repr

/-- Alert record (models.py `Alert`); `alert_id` and `message` omitted
(random uuid / display string). -/
structure Alert where
  alert_type : String
  severity : String
  timestamp : ℚ
  trade_id : Option String
  strategy_id : Option String
  notional_eur : Option ℚ
  deriving DecidableEq, Repr

/-! ### config.py -/

/-- config.py `ALERT_THRESHOLDS_EUR["critical"]`. -/
def THRESHOLD_CRITICAL : ℚ := 2000000000

/-- config.py `ALERT_THRESHOLDS_EUR["high"]`. -/
def THRESHOLD_HIGH : ℚ := 1000000000

/-- config.py `ALERT_THRESHOLDS_EUR["medium"]`. -/
def THRESHOLD_MEDIUM : ℚ := 500000000

/-- config.py `STRATEGY_TIME_WINDOW` (seconds). -/
def STRATEGY_TIME_WINDOW : ℚ := 20

/-- config.py `MAX_TRADES_IN_BUFFER`. -/
def MAX_TRADES_IN_BUFFER : Nat := 1000

/-! ### alert_engine.py -/

/-- Mutable state of alert_engine.py `AlertEngine` (the rate cache is
replaced by the rate oracle, the callback is not modelled). -/
structure AlertEngineState where
  volume_history : List (ℚ × ℚ)
  alerted_trade_ids : List String
  alerted_strategy_ids : List String
  last_volume_alert_time : Option ℚ
  deriving DecidableEq, Repr

/-- Models `AlertEngine.__init__`. -/
def AlertEngineState.init : AlertEngineState :=
  { volume_history := []
    alerted_trade_ids := []
    alerted_strategy_ids := []
    last_volume_alert_time := none }

/-- Models `AlertEngine._convert_to_eur`: `if not notional or not currency:
return None` (Python falsiness: 0 or empty string), EUR is identity,
otherwise multiply by the oracle rate when available. -/
def convert_to_eur (rates : String → Option ℚ) (notional : ℚ)
    (currency : String) : Option ℚ :=
  if notional = 0 ∨ currency = "" then none
  else if currency = "EUR" then some notional
  else match rates currency with
    | none => none
    | some r => some (notional * r)

/-- Leg-1 conversion with fall-back to leg 2, as done at every use site
in `process_trade`. -/
def convertTradeToEur (rates : String → Option ℚ) (t : Trade) : Option ℚ :=
  match convert_to_eur rates t.notional_amount_leg1 t.notional_currency_leg1 with
  | some v => some v
  | none => convert_to_eur rates t.notional_amount_leg2 t.notional_currency_leg2

/-- The threshold ladder of `process_trade` / `process_strategy`
(lines 168-175 / 221-228): critical, then high, then medium, first
match wins, each by `>=`. -/
def severityFor (eur : ℚ) : Option String :=
  if eur ≥ THRESHOLD_CRITICAL then some "critical"
  else if eur ≥ THRESHOLD_HIGH then some "high"
  else if eur ≥ THRESHOLD_MEDIUM then some "medium"
  else none

/-- Models the `if eur_notional:` assignment used in the early-return branches of
`process_trade` (a 0.0 conversion result is falsy and not stored). -/
def setDisplayEur (t : Trade) (eur : Option ℚ) : Trade :=
  match eur with
  | some v => if v = 0 then t else { t with notional_eur := some v }
  | none => t

/-- Models `AlertEngine.process_trade`.  Returns the emitted alert, the
(possibly mutated) trade and the new engine state.  `now` stands for
`datetime.utcnow()` at the call. -/
def process_trade (rates : String → Option ℚ) (s : AlertEngineState)
    (t : Trade) (is_new_trade : Bool) (now : ℚ) :
    Option Alert × Trade × AlertEngineState :=
  if t.dissemination_identifier ∈ s.alerted_trade_ids then
    (none, setDisplayEur t (convertTradeToEur rates t), s)
  else if ¬ is_new_trade then
    (none, setDisplayEur t (convertTradeToEur rates t), s)
  else
    match convertTradeToEur rates t with
    | none => (none, t, s)
    | some eur =>
      let t' := { t with notional_eur := some eur }
      match severityFor eur with
      | some sev =>
        let s' := { s with
          alerted_trade_ids := s.alerted_trade_ids ++ [t.dissemination_identifier] }
        (some { alert_type := "LargeTrade", severity := sev, timestamp := now
                trade_id := some t.dissemination_identifier
                strategy_id := none, notional_eur := some eur }, t', s')
      | none =>
        let s' := { s with
          alerted_trade_ids := s.alerted_trade_ids ++ [t.dissemination_identifier] }
        (none, t', s')

/-- Models `AlertEngine.process_strategy`. -/
def process_strategy (s : AlertEngineState) (strat : Strategy)
    (is_new_strategy : Bool) (now : ℚ) : Option Alert × AlertEngineState :=
  if ¬ is_new_strategy then (none, s)
  else if strat.strategy_id ∈ s.alerted_strategy_ids then (none, s)
  else
    match severityFor strat.total_notional_eur with
    | none => (none, s)
    | some sev =>
      let s' := { s with
        alerted_strategy_ids := s.alerted_strategy_ids ++ [strat.strategy_id] }
      (some { alert_type := "StrategyPackage", severity := sev, timestamp := now
              trade_id := none, strategy_id := some strat.strategy_id
              notional_eur := some strat.total_notional_eur }, s')

/-- History entries contributed by a batch in `check_volume_trend`
(only trades with truthy `notional_eur`). -/
def volumeEntries (trades : List Trade) : List (ℚ × ℚ) :=
  trades.filterMap (fun t =>
    match t.notional_eur with
    | some v => if v = 0 then none else some (t.execution_timestamp, v)
    | none => none)

/-- The `self.volume_history` value after appending a batch and pruning
entries at or before `now - 300` (check_volume_trend lines 262-271). -/
def newVolumeHistory (s : AlertEngineState) (trades : List Trade)
    (now : ℚ) : List (ℚ × ℚ) :=
  (s.volume_history ++ volumeEntries trades).filter (fun p => now - 300 < p.1)

/-- The `recent_volume` local of `check_volume_trend`: sum of the
pruned 5-minute window. -/
def recentVolume (s : AlertEngineState) (trades : List Trade) (now : ℚ) : ℚ :=
  ((newVolumeHistory s trades now).map (fun p => p.2)).sum

/-- The Trend alert `check_volume_trend` constructs. -/
def trendAlert (s : AlertEngineState) (trades : List Trade) (now : ℚ) :
    Alert :=
  { alert_type := "Trend", severity := "high", timestamp := now
    trade_id := none, strategy_id := none
    notional_eur := some (recentVolume s trades now) }

/-- Models `AlertEngine.check_volume_trend`.  History entries are appended for
trades with truthy `notional_eur`, entries at or before `now - 300`
are pruned, and the pruned sum is compared with the 5 B threshold under
the 5-minute cool-down. -/
def check_volume_trend (s : AlertEngineState) (trades : List Trade)
    (only_new_trades : Bool) (now : ℚ) : Option Alert × AlertEngineState :=
  if ¬ only_new_trades ∨ trades = [] then (none, s)
  else if 5000000000 < recentVolume s trades now then
    match s.last_volume_alert_time with
    | some last =>
      if now - last < 300 then
        (none, { s with volume_history := newVolumeHistory s trades now })
      else
        (some (trendAlert s trades now),
         { s with volume_history := newVolumeHistory s trades now
                  last_volume_alert_time := some now })
    | none =>
      (some (trendAlert s trades now),
       { s with volume_history := newVolumeHistory s trades now
                last_volume_alert_time := some now })
  else (none, { s with volume_history := newVolumeHistory s trades now })

/-! ### strategy_detector.py -/

/-- Python truthiness of an `Optional[str]` field. -/
def truthyStr : Option String → Bool
  | some s => s ≠ ""
  | none => false

/-- Association-list lookup, modelling Python dict indexing / `in`. -/
def alistLookup (k : String) : List (String × α) → Option α
  | [] => none
  | (k', v) :: rest => if k' = k then some v else alistLookup k rest

/-- Association-list store, modelling Python dict assignment (updates
in place, otherwise appends, preserving insertion order). -/
def alistInsert (k : String) (v : α) : List (String × α) → List (String × α)
  | [] => [(k, v)]
  | (k', v') :: rest =>
    if k' = k then (k, v) :: rest else (k', v') :: alistInsert k v rest

/-- Python `max(timestamps)` over a nonempty Python list (the 0 default is
never reached: every caller guards nonemptiness). -/
def listMax : List ℚ → ℚ
  | [] => 0
  | x :: xs => xs.foldl max x

/-- Python `min(timestamps)` over a nonempty Python list. -/
def listMin : List ℚ → ℚ
  | [] => 0
  | x :: xs => xs.foldl min x

/-- The `StrategyDetector._extract_instrument_pair` canonical tenor
order. -/
def instrumentOrder : List String :=
  ["3M", "6M", "1Y", "2Y", "3Y", "5Y", "7Y", "10Y", "15Y", "20Y", "30Y"]

/-- Sort key of `_extract_instrument_pair.get_sort_key`: index of the
part before the first "/" in the canonical order, 999 if unknown. -/
def instrumentSortKey (instr : String) : Nat :=
  let base := (instr.splitOn "/").headD instr
  match instrumentOrder.findIdx? (fun s => s = base) with
  | some i => i
  | none => 999

/-- Stable insertion of one instrument into a key-sorted list (equal
keys keep their existing relative order, as Python's stable sort). -/
def stableInsert (x : String) : List String → List String
  | [] => [x]
  | y :: ys =>
    if instrumentSortKey y ≤ instrumentSortKey x then y :: stableInsert x ys
    else x :: y :: ys

/-- Models `sorted(unique_instruments, key=get_sort_key)` (stable). -/
def sortInstruments (l : List String) : List String :=
  l.foldl (fun acc x => stableInsert x acc) []

/-- Models `StrategyDetector._extract_instrument_pair`.  `list(set(...))` is
modelled as first-occurrence deduplication (one order a Python set may
present; only the tie order of instruments with equal sort key depends
on it). -/
def extract_instrument_pair (ts : List Trade) :
    Option String × Option (List String) :=
  let instruments := ts.filterMap (fun t =>
    match t.instrument with
    | some i => if i = "" then none else some i
    | none => none)
  let uniq := instruments.eraseDups
  if uniq = [] then (none, none)
  else
    let sorted := sortInstruments uniq
    (some (String.intercalate "/" sorted), some sorted)

/-- Models `StrategyDetector._classify_strategy_type`. -/
def classify_strategy_type (num_legs : Nat) (instrument_pair : Option String) :
    String :=
  let base :=
    if num_legs = 2 then "Spread"
    else if num_legs = 3 then "Butterfly"
    else if num_legs ≥ 4 then "Curve"
    else "Package"
  match instrument_pair with
  | some p => if p = "" then base else p ++ " " ++ base
  | none => base

/-- Mutable state of `StrategyDetector`; `counter` determinizes the
`uuid.uuid4()` fresh-key generator. -/
structure DetectorState where
  recent_trades : List Trade
  package_strategies : List (String × Strategy)
  custom_strategies : List (String × Strategy)
  trade_to_strategy : List (String × String)
  counter : Nat
  deriving DecidableEq, Repr

/-- Models `StrategyDetector.__init__`. -/
def DetectorState.init : DetectorState :=
  { recent_trades := [], package_strategies := [], custom_strategies := []
    trade_to_strategy := [], counter := 0 }

/-- Models `trade.unique_product_identifier_underlier_name or "Unknown"`. -/
def underlyingOrUnknown (t : Trade) : String :=
  match t.unique_product_identifier_underlier_name with
  | some u => if u = "" then "Unknown" else u
  | none => u_default
where u_default : String := "Unknown"

/-- The pydantic error raised on assigning the undeclared
`instrument_pair` attribute of a `Strategy` (strategy_detector.py
lines 127 and 215; models.py `Strategy` declares no such field and no
`Config`, so assignment of an unknown field raises ValueError). -/
def noFieldError : String :=
  "ValueError: Strategy object has no field instrument_pair"

/-- Models `StrategyDetector._detect_package_strategy` with `package_trades`
passed by the caller (as `detect_strategies` always does), for a trade
satisfying the caller's guard (`package_indicator`, truthy price `pk`,
`action_type == "NEWT"`).  The update branch (lines 116-131) appends
the NEWT leg, bumps `execution_end` and records the trade-to-strategy
mapping, computes the instrument pair (line 126, pure), then line 127
`strategy.instrument_pair = ...` raises pydantic's ValueError — the
mutations made so far persist and lines 128-131 never run.  The create
branch (lines 132-159) completes: the constructor discards the
undeclared instrument keyword arguments and line 157 re-assigns the
declared `strategy_type` field. -/
def detectPackageStrategy (st : DetectorState) (trade : Trade) (pk : String)
    (package_trades : List Trade) : DetectorState × Except String Strategy :=
  match alistLookup pk st.package_strategies with
  | some strat =>
    let upd := trade.action_type = "NEWT" ∧
        trade.dissemination_identifier ∉ strat.legs
    let strat1 :=
      if upd then
        { strat with
          legs := strat.legs ++ [trade.dissemination_identifier]
          execution_end := max strat.execution_end trade.execution_timestamp }
      else strat
    let t2s :=
      if upd then
        alistInsert trade.dissemination_identifier strat.strategy_id
          st.trade_to_strategy
      else st.trade_to_strategy
    ({ st with package_strategies := alistInsert pk strat1 st.package_strategies
               trade_to_strategy := t2s },
     .error noFieldError)
  | none =>
    let sid := "PKG_" ++ toString st.counter
    let pr := extract_instrument_pair package_trades
    let strat : Strategy :=
      { strategy_id := sid
        strategy_type := classify_strategy_type 1 pr.1
        underlying_name := underlyingOrUnknown trade
        legs := [trade.dissemination_identifier]
        total_notional_eur := trade.notional_eur.getD 0
        execution_start := trade.execution_timestamp
        execution_end := trade.execution_timestamp
        package_transaction_price := some pk }
    ({ st with
       package_strategies := alistInsert pk strat st.package_strategies
       trade_to_strategy :=
         alistInsert trade.dissemination_identifier sid st.trade_to_strategy
       counter := st.counter + 1 },
     .ok strat)

/-- The `underlying_groups` defaultdict of
`_detect_custom_strategies`: append `t` to the group of key `u`
(insertion-ordered keys). -/
def groupAdd (u : String) (t : Trade) :
    List (String × List Trade) → List (String × List Trade)
  | [] => [(u, [t])]
  | (k, l) :: rest =>
    if k = u then (k, l ++ [t]) :: rest else (k, l) :: groupAdd u t rest

/-- Grouping loop of `_detect_custom_strategies` (NEWT trades with a
truthy underlying, grouped over the whole `recent_trades` buffer). -/
def underlyingGroups (recent : List Trade) : List (String × List Trade) :=
  recent.foldl (fun gs t =>
    if t.action_type = "NEWT" then
      match t.unique_product_identifier_underlier_name with
      | some u => if u = "" then gs else groupAdd u t gs
      | none => gs
    else gs) []

/-- Distinct truthy `expiration_date` values of a group (the Python
set comprehension, counted). -/
def distinctMaturities (group : List Trade) : List String :=
  (group.filterMap (fun t =>
    match t.expiration_date with
    | some d => if d = "" then none else some d
    | none => none)).eraseDups

/-- The partial update the custom rule performs before it raises
(lines 206-211): absorb the group's missing leg ids in group order,
set `execution_end` to the group's max timestamp, recompute the total
over the group (null as 0).  Line 215 (`strategy.instrument_pair =
...`) then raises, so the instrument fields and `strategy_type` are
never touched. -/
def customUpdatedStrategy (strat : Strategy) (group : List Trade) : Strategy :=
  { strat with
    legs := group.foldl (fun ls t =>
      if t.dissemination_identifier ∈ ls then ls
      else ls ++ [t.dissemination_identifier]) strat.legs
    execution_end := listMax (group.map (·.execution_timestamp))
    total_notional_eur := (group.map (fun t => t.notional_eur.getD 0)).sum }

/-- Body of the per-group loop of `_detect_custom_strategies`.  The
Python `trade_ids` set is iterated in first-occurrence order.  Two
branches raise: the dictionary lookup at line 205 raises `KeyError`
when the mapped strategy id is not a custom key, and the update branch
raises pydantic's ValueError at line 215 (undeclared
`instrument_pair`) after the legs/end/total mutations of lines 206-211
have been applied in place.  The create branch completes (the
constructor discards the undeclared instrument keyword arguments). -/
def customGroupStep (underlying : String) (group : List Trade)
    (acc : List Strategy × DetectorState) :
    (List Strategy × DetectorState) × Option String :=
  let st := acc.2
  if group.length < 2 then (acc, none)
  else if (distinctMaturities group).length < 2 then (acc, none)
  else
    let timestamps := group.map (·.execution_timestamp)
    if listMax timestamps - listMin timestamps ≤ STRATEGY_TIME_WINDOW then
      let trade_ids := (group.map (·.dissemination_identifier)).eraseDups
      let existing := trade_ids.findSome? (fun tid =>
        alistLookup tid st.trade_to_strategy)
      let pr := extract_instrument_pair group
      match existing with
      | some esid =>
        match alistLookup esid st.custom_strategies with
        | none => (acc, some ("KeyError: " ++ esid))
        | some strat =>
          ((acc.1,
            { st with custom_strategies := alistInsert esid (customUpdatedStrategy strat group) st.custom_strategies }),
           some noFieldError)
      | none =>
        let sid := "CUST_" ++ toString st.counter
        let strat : Strategy :=
          { strategy_id := sid
            strategy_type := classify_strategy_type group.length pr.1
            underlying_name := underlying
            legs := group.map (·.dissemination_identifier)
            total_notional_eur := (group.map (fun t => t.notional_eur.getD 0)).sum
            execution_start := listMin timestamps
            execution_end := listMax timestamps
            package_transaction_price := none }
        ((acc.1 ++ [strat],
          { st with
            custom_strategies := alistInsert sid strat st.custom_strategies
            trade_to_strategy := trade_ids.foldl (fun m tid =>
              alistInsert tid sid m) st.trade_to_strategy
            counter := st.counter + 1 }), none)
    else (acc, none)

/-- Fold over the underlying groups, aborted by the first uncaught
exception; the partially mutated state persists. -/
def customGroupsFold (gs : List (String × List Trade))
    (acc : List Strategy × DetectorState) :
    (List Strategy × DetectorState) × Option String :=
  match gs with
  | [] => (acc, none)
  | (u, g) :: rest =>
    let r := customGroupStep u g acc
    match r.2 with
    | none => customGroupsFold rest r.1
    | some e => (r.1, some e)

/-- Models `StrategyDetector._detect_custom_strategies`. -/
def detectCustomStrategies (st : DetectorState) :
    (List Strategy × DetectorState) × Option String :=
  customGroupsFold (underlyingGroups st.recent_trades) ([], st)

/-- Package-rule loop of `detect_strategies` (over the incoming batch,
against the pruned `recent_trades` buffer), aborted by the first
raise. -/
def packageLoop : List Trade → List Strategy × DetectorState →
    (List Strategy × DetectorState) × Option String
  | [], acc => (acc, none)
  | trade :: rest, acc =>
    match trade.package_transaction_price with
    | some pk =>
      if trade.package_indicator ∧ pk ≠ "" ∧ trade.action_type = "NEWT" then
        let pts := acc.2.recent_trades.filter (fun t =>
          t.package_transaction_price = some pk ∧ t.action_type = "NEWT")
        let pts := if trade ∈ pts then pts else pts ++ [trade]
        let r := detectPackageStrategy acc.2 trade pk pts
        match r.2 with
        | .ok strat => packageLoop rest (acc.1 ++ [strat], r.1)
        | .error e => ((acc.1, r.1), some e)
      else packageLoop rest acc
    | none => packageLoop rest acc

/-- Models `StrategyDetector.detect_strategies`: extend and prune the
recent buffer, run the package rule over the batch, then the custom
rule.  The first component is the detector state as it stands when the
call returns or raises (Python object state persists across a raise);
the second is the returned strategy list, or the uncaught exception.
(In Python the returned list holds references to strategy objects
mutated in place later; the model returns the values as of their
append.) -/
def detect_strategies (st : DetectorState) (trades : List Trade) (now : ℚ) :
    DetectorState × Except String (List Strategy) :=
  let cutoff := now - STRATEGY_TIME_WINDOW
  let st1 := { st with recent_trades :=
    (st.recent_trades ++ trades).filter (fun t =>
      cutoff < t.execution_timestamp) }
  let p := packageLoop trades ([], st1)
  match p.2 with
  | some e => (p.1.2, .error e)
  | none =>
    let c := detectCustomStrategies p.1.2
    match c.2 with
    | some e => (c.1.2, .error e)
    | none => (c.1.2, .ok (p.1.1 ++ c.1.1))

/-- Run `detect_strategies` over successive batches (each with its
call-time clock), stopping at the first uncaught exception and
returning the detector state as it stands at that point. -/
def detectSeq : DetectorState → List (List Trade × ℚ) →
    DetectorState × Option String
  | st, [] => (st, none)
  | st, (trades, now) :: rest =>
    let r := detect_strategies st trades now
    match r.2 with
    | .error e => (r.1, some e)
    | .ok _ => detectSeq r.1 rest

/-! ### main.py `process_trades` (trade ledger) -/

/-- Ledger-relevant state of main.py: the `seen_trade_ids` set, the
`trade_buffer` list and the alert engine. -/
structure MainState where
  seen_trade_ids : List String
  trade_buffer : List Trade
  engine : AlertEngineState
  deriving DecidableEq, Repr

/-- Dedup filter of `process_trades` (lines 215-231): unseen ids are
marked seen and kept, in input order. -/
def dedupStep (seen : List String) : List Trade → List String × List Trade
  | [] => (seen, [])
  | t :: rest =>
    if t.dissemination_identifier ∈ seen then dedupStep seen rest
    else
      let r := dedupStep (seen ++ [t.dissemination_identifier]) rest
      (r.1, t :: r.2)

/-- Buffer-bound eviction of `process_trades` (lines 240-247): when
over capacity, drop the oldest `length - max` trades and discard their
ids from the seen set. -/
def evictStep (buffer : List Trade) (seen : List String) :
    List Trade × List String :=
  if MAX_TRADES_IN_BUFFER < buffer.length then
    let removed := buffer.take (buffer.length - MAX_TRADES_IN_BUFFER)
    (buffer.drop (buffer.length - MAX_TRADES_IN_BUFFER),
     seen.filter (fun i => i ∉ removed.map (·.dissemination_identifier)))
  else (buffer, seen)

/-- Per-new-trade alert loop of `process_trades` (line 255), collecting
emitted alerts. -/
def alertLoop (rates : String → Option ℚ) (engine : AlertEngineState)
    (new_trades : List Trade) (now : ℚ) : AlertEngineState × List Alert :=
  new_trades.foldl (fun acc t =>
    let r := process_trade rates acc.1 t true now
    (r.2.2, acc.2 ++ r.1.toList)) (engine, [])

/-- main.py `process_trades` restricted to the ledger/alert pipeline
(Excel writing, daily stats and broadcasting are external effects). -/
def process_trades_main (rates : String → Option ℚ) (ms : MainState)
    (trades : List Trade) (now : ℚ) : MainState × List Alert :=
  if trades = [] then (ms, [])
  else
    let d := dedupStep ms.seen_trade_ids trades
    if d.2 = [] then ({ ms with seen_trade_ids := d.1 }, [])
    else
      let buffer1 := ms.trade_buffer ++ d.2
      let e := evictStep buffer1 d.1
      let a := alertLoop rates ms.engine d.2 now
      ({ seen_trade_ids := e.2, trade_buffer := e.1, engine := a.1 }, a.2)

/-! ### analytics_engine.py -/

/-- Models `AnalyticsEngine.calculate_hhi` over the entries of the
`volumes` dict (distinct keys in Python; the computation only reads the
values). -/
def calculate_hhi (volumes : List (String × ℚ)) : ℚ :=
  if volumes = [] then 0
  else
    let total := (volumes.map (·.2)).sum
    if total = 0 then 0
    else ((volumes.map (fun p => (p.2 / total) ^ 2)).sum) * 10000

/-! ### Alert-engine call traces (for the at-most-once invariant) -/

/-- One call to the alert engine: `process_trade` or `process_strategy`
with the caller-supplied freshness flag and call-time clock. -/
inductive EngineEvent where
  | trade (t : Trade) (is_new : Bool) (now : ℚ)
  | strategy (strat : Strategy) (is_new : Bool) (now : ℚ)
  deriving DecidableEq

/-- One engine call: the emitted alert and the next engine state. -/
def engineStep (rates : String → Option ℚ) (s : AlertEngineState) :
    EngineEvent → Option Alert × AlertEngineState
  | .trade t b now =>
    let r := process_trade rates s t b now
    (r.1, r.2.2)
  | .strategy strat b now => process_strategy s strat b now

/-- Run a sequence of engine calls, collecting every emitted alert. -/
def runEngine (rates : String → Option ℚ) (s : AlertEngineState) :
    List EngineEvent → List Alert × AlertEngineState
  | [] => ([], s)
  | e :: rest =>
    let r := engineStep rates s e
    let rr := runEngine rates r.2 rest
    (r.1.toList ++ rr.1, rr.2)

/-- Number of LargeTrade alerts for trade id `d` in an alert list. -/
def countLargeTradeAlerts (d : String) (as : List Alert) : Nat :=
  as.countP (fun a => decide (a.alert_type = "LargeTrade" ∧ a.trade_id = some d))

/-- Number of StrategyPackage alerts for strategy id `sid`. -/
def countStrategyPackageAlerts (sid : String) (as : List Alert) : Nat :=
  as.countP (fun a =>
    decide (a.alert_type = "StrategyPackage" ∧ a.strategy_id = some sid))

/-- Number of buffer entries carrying trade id `d`. -/
def countTradeId (d : String) (buf : List Trade) : Nat :=
  buf.countP (fun t => decide (t.dissemination_identifier = d))

/-! ### Concrete inputs used by witnesses and counterexamples -/

/-- A plain EUR-denominated NEWT trade. -/
def baseTrade : Trade :=
  { dissemination_identifier := "T0"
    action_type := "NEWT"
    execution_timestamp := 0
    expiration_date := none
    notional_amount_leg1 := 1000000
    notional_amount_leg2 := 0
    notional_currency_leg1 := "EUR"
    notional_currency_leg2 := ""
    unique_product_identifier_underlier_name := none
    package_indicator := false
    package_transaction_price := none
    notional_eur := none
    instrument := none }

/-- A trade whose leg-1 notional is exactly the medium threshold. -/
def wMediumTrade : Trade := { baseTrade with
    notional_amount_leg1 := 500000000 }

/-- A large trade in currencies for which no rate is available. -/
def wNoRateTrade : Trade :=
  { baseTrade with
    notional_amount_leg1 := 700000000
    notional_currency_leg1 := "USD"
    notional_amount_leg2 := 700000000
    notional_currency_leg2 := "JPY" }

/-- First volume-trend breach: a 6 B EUR trade at t = 1000. -/
def wVolTrade : Trade :=
  { baseTrade with
    dissemination_identifier := "V1"
    execution_timestamp := 1000
    notional_eur := some 6000000000 }

/-- Second batch, observed 100 s after the first breach. -/
def wVolTrade2 : Trade :=
  { baseTrade with
    dissemination_identifier := "V2"
    execution_timestamp := 1100
    notional_eur := some 1000 }

/-- The alert emitted by the first breach. -/
def wVolAlert : Alert :=
  { alert_type := "Trend"
    severity := "high"
    timestamp := 1000
    trade_id := none
    strategy_id := none
    notional_eur := some 6000000000 }

/-- The engine state after the first breach. -/
def wVolState1 : AlertEngineState :=
  { volume_history := [(1000, 6000000000)]
    alerted_trade_ids := []
    alerted_strategy_ids := []
    last_volume_alert_time := some 1000 }

/-- A trade with id "D". -/
def wDupTrade : Trade := { baseTrade with
    dissemination_identifier := "D" }

/-- A ledger state that has already seen and buffered "D". -/
def wMainState : MainState :=
  { seen_trade_ids := ["D"]
    trade_buffer := [wDupTrade]
    engine := AlertEngineState.init }

/-- Custom-rule leg "A" (underlying EUR-EURIBOR, maturity 2030). -/
def cTradeA : Trade :=
  { baseTrade with
    dissemination_identifier := "A"
    expiration_date := some "2030-01-01"
    unique_product_identifier_underlier_name := some "EUR-EURIBOR"
    notional_eur := some 10 }

/-- Custom-rule leg "B" (same underlying, maturity 2035, 1 s later). -/
def cTradeB : Trade :=
  { baseTrade with
    dissemination_identifier := "B"
    execution_timestamp := 1
    expiration_date := some "2035-01-01"
    unique_product_identifier_underlier_name := some "EUR-EURIBOR"
    notional_eur := some 20 }

/-- A package trade "P" sharing the custom group's underlying. -/
def cTradeP : Trade :=
  { baseTrade with
    dissemination_identifier := "P"
    execution_timestamp := 2
    expiration_date := some "2040-01-01"
    unique_product_identifier_underlier_name := some "EUR-EURIBOR"
    package_indicator := true
    package_transaction_price := some "X"
    notional_eur := some 30 }

/-- Two ticks: a custom strategy forms from A and B, then package trade
P arrives and is claimed by the package rule. -/
def c2Run : DetectorState × Option String :=
  detectSeq DetectorState.init [([cTradeA, cTradeB], 1), ([cTradeP], 2)]

/-- After `c2Run` — which ends in the line-215 ValueError — does trade
id `tid` sit in the legs of a package strategy and also in the legs of
a custom strategy in the detector's persisting state? -/
def tradeInTwoStrategiesCheck (tid : String) : Bool :=
  (decide (c2Run.2 = some noFieldError)) &&
  (c2Run.1.package_strategies.any (fun p => decide (tid ∈ p.2.legs))) &&
  (c2Run.1.custom_strategies.any (fun p => decide (tid ∈ p.2.legs)))

/-- A package trade "P1" that also carries an underlying and maturity. -/
def kTradeP1 : Trade :=
  { baseTrade with
    dissemination_identifier := "P1"
    expiration_date := some "2030-01-01"
    unique_product_identifier_underlier_name := some "U"
    package_indicator := true
    package_transaction_price := some "X"
    notional_eur := some 100 }

/-- A non-package trade "B" sharing P1's underlying, different
maturity, 1 s later. -/
def kTradeB : Trade :=
  { baseTrade with
    dissemination_identifier := "B"
    execution_timestamp := 1
    expiration_date := some "2035-01-01"
    unique_product_identifier_underlier_name := some "U"
    notional_eur := some 50 }

/-- First leg of package "Y" (no maturity, so the custom rule skips the
group), 100 EUR notional. -/
def dTradeQ1 : Trade :=
  { baseTrade with
    dissemination_identifier := "Q1"
    unique_product_identifier_underlier_name := some "U"
    package_indicator := true
    package_transaction_price := some "Y"
    notional_eur := some 100 }

/-- Second leg of package "Y", 200 EUR notional, 1 s later. -/
def dTradeQ2 : Trade :=
  { baseTrade with
    dissemination_identifier := "Q2"
    execution_timestamp := 1
    unique_product_identifier_underlier_name := some "U"
    package_indicator := true
    package_transaction_price := some "Y"
    notional_eur := some 200 }

/-- Two ticks ingesting the two legs of package "Y". -/
def c3Run : DetectorState × Option String :=
  detectSeq DetectorState.init [([dTradeQ1], 0), ([dTradeQ2], 1)]

/-- After `c3Run` — whose second tick's update branch raises the
line-127 ValueError right after its mutations — does package strategy
"Y" hold both legs in the persisting state while its total is still
the first leg's 100 (though the legs' notionals sum to 300)? -/
def staleTotalCheck : Bool :=
  (decide (c3Run.2 = some noFieldError)) &&
  (match alistLookup "Y" c3Run.1.package_strategies with
   | none => false
   | some s =>
     decide (s.legs = ["Q1", "Q2"]) && decide (s.total_notional_eur = 100) &&
     decide (dTradeQ1.notional_eur.getD 0 + dTradeQ2.notional_eur.getD 0 = 300))

/-- An existing one-leg package strategy for key "Y". -/
def wPkgStrat : Strategy :=
  { strategy_id := "PKG_0"
    strategy_type := "Package"
    underlying_name := "U"
    legs := ["Q1"]
    total_notional_eur := 100
    execution_start := 0
    execution_end := 0
    package_transaction_price := some "Y" }

/-- A detector state holding `wPkgStrat` under key "Y". -/
def wPkgState : DetectorState :=
  { DetectorState.init with
    package_strategies := [("Y", wPkgStrat)] }

/-- An existing two-leg custom strategy "CUST_0". -/
def wCustStrat : Strategy :=
  { strategy_id := "CUST_0"
    strategy_type := "Spread"
    underlying_name := "EUR-EURIBOR"
    legs := ["A", "B"]
    total_notional_eur := 30
    execution_start := 0
    execution_end := 1
    package_transaction_price := none }

/-- A detector state holding `wCustStrat`, with leg "A" mapped to it. -/
def wCustState : DetectorState :=
  { DetectorState.init with
    custom_strategies := [("CUST_0", wCustStrat)]
    trade_to_strategy := [("A", "CUST_0")] }

/-- A new trade "C" in the same underlying group as leg "A". -/
def wGroupC : Trade :=
  { baseTrade with
    dissemination_identifier := "C"
    execution_timestamp := 1
    expiration_date := some "2035-01-01"
    unique_product_identifier_underlier_name := some "EUR-EURIBOR"
    notional_eur := some 40 }

/-! ### Theorems -/

/-- C10: calling `check_volume_trend` with an empty batch, or with
`only_new_trades = false`, returns no alert and leaves the whole engine
state (volume history, cool-down clock, alerted-id sets) unchanged. -/
theorem check_volume_trend_empty_frame (s : AlertEngineState)
    (trades : List Trade) (b : Bool) (now : ℚ) :
    check_volume_trend s [] b now = (none, s) ∧
    check_volume_trend s trades false now = (none, s) := by
  constructor <;> simp [check_volume_trend]

/-- C7: when EUR normalization fails for both legs of a fresh,
not-yet-evaluated trade, `process_trade` returns no alert and leaves
the engine state — in particular `alerted_trade_ids` — untouched, so
the same trade can be evaluated again later. -/
theorem failed_conversion_not_evaluated (rates : String → Option ℚ)
    (s : AlertEngineState) (t : Trade) (now : ℚ)
    (hid : t.dissemination_identifier ∉ s.alerted_trade_ids)
    (h1 : convert_to_eur rates t.notional_amount_leg1 t.notional_currency_leg1
      = none)
    (h2 : convert_to_eur rates t.notional_amount_leg2 t.notional_currency_leg2
      = none) :
    process_trade rates s t true now = (none, t, s) := by
  simp [process_trade, convertTradeToEur, h1, h2, hid]

/-- Witness for C7 at a concrete trade and an empty rate oracle. -/
theorem failed_conversion_not_evaluated_witness :
    process_trade (fun _ => none) AlertEngineState.init wNoRateTrade true 0 =
      (none, wNoRateTrade, AlertEngineState.init) :=
  failed_conversion_not_evaluated (fun _ => none) AlertEngineState.init
    wNoRateTrade 0 (by decide) (by decide) (by decide)

/-- Any call of `check_volume_trend` that emits an alert stamps the
call time into `last_volume_alert_time`. -/
lemma check_volume_trend_fires (s : AlertEngineState) (trades : List Trade)
    (b : Bool) (now : ℚ) (a : Alert) (s1 : AlertEngineState)
    (h : check_volume_trend s trades b now = (some a, s1)) :
    s1.last_volume_alert_time = some now := by
  unfold check_volume_trend at h
  split at h
  · simp at h
  · split at h
    · split at h
      · split at h
        · simp at h
        · rw [Prod.mk.injEq] at h
          rw [← h.2]
      · rw [Prod.mk.injEq] at h
        rw [← h.2]
    · simp at h

/-- C8: once a volume-trend alert has fired at time `t1`, any further
`check_volume_trend` call strictly less than 300 s later emits no
alert, whatever trades it carries — two qualifying breaches under
5 minutes apart yield exactly one Trend alert. -/
theorem volume_trend_cooldown (s : AlertEngineState)
    (trades trades2 : List Trade) (t1 t2 : ℚ) (a : Alert)
    (s1 : AlertEngineState)
    (h1 : check_volume_trend s trades true t1 = (some a, s1))
    (h2 : t2 - t1 < 300) :
    (check_volume_trend s1 trades2 true t2).1 = none := by
  have hl : s1.last_volume_alert_time = some t1 :=
    check_volume_trend_fires s trades true t1 a s1 h1
  unfold check_volume_trend
  split
  · rfl
  · split
    · rw [hl]
      simp [h2]
    · rfl

/-- Witness for C8: a 6 B EUR breach fires at t = 1000 and a second
over-threshold window at t = 1100 emits nothing. -/
theorem volume_trend_cooldown_witness :
    (check_volume_trend wVolState1 [wVolTrade2] true 1100).1 = none :=
  volume_trend_cooldown AlertEngineState.init [wVolTrade] [wVolTrade2]
    1000 1100 wVolAlert wVolState1 (by with_unfolding_all rfl)
    (by with_unfolding_all decide)

/-- The ladder returns critical at or above the critical threshold. -/
lemma severityFor_critical (eur : ℚ) (h : THRESHOLD_CRITICAL ≤ eur) :
    severityFor eur = some "critical" := by
  simp [severityFor, h]

/-- The ladder returns high on [high, critical). -/
lemma severityFor_high (eur : ℚ) (h1 : eur < THRESHOLD_CRITICAL)
    (h2 : THRESHOLD_HIGH ≤ eur) : severityFor eur = some "high" := by
  simp [severityFor, h2, not_le.mpr h1]

/-- The ladder returns medium on [medium, high). -/
lemma severityFor_medium (eur : ℚ) (h1 : eur < THRESHOLD_HIGH)
    (h2 : THRESHOLD_MEDIUM ≤ eur) : severityFor eur = some "medium" := by
  have hc : eur < THRESHOLD_CRITICAL := by
    refine lt_trans h1 ?_
    norm_num [THRESHOLD_HIGH, THRESHOLD_CRITICAL]
  simp [severityFor, h2, not_le.mpr h1, not_le.mpr hc]

/-- The ladder returns nothing below the medium threshold. -/
lemma severityFor_below (eur : ℚ) (h : eur < THRESHOLD_MEDIUM) :
    severityFor eur = none := by
  have hh : eur < THRESHOLD_HIGH := by
    refine lt_trans h ?_
    norm_num [THRESHOLD_MEDIUM, THRESHOLD_HIGH]
  have hc : eur < THRESHOLD_CRITICAL := by
    refine lt_trans hh ?_
    norm_num [THRESHOLD_HIGH, THRESHOLD_CRITICAL]
  simp [severityFor, not_le.mpr h, not_le.mpr hh, not_le.mpr hc]

/-- C5: for a fresh, not-yet-evaluated trade whose notional converts to
`eur` EUR, `process_trade` classifies by the three thresholds from
highest to lowest, first match winning, each by `≥` — so an exact
threshold value gets that threshold's severity — and below the medium
threshold no alert is emitted (though the id is marked evaluated). -/
theorem large_trade_threshold_ladder (rates : String → Option ℚ)
    (s : AlertEngineState) (t : Trade) (now eur : ℚ)
    (hid : t.dissemination_identifier ∉ s.alerted_trade_ids)
    (hconv : convertTradeToEur rates t = some eur) :
    (THRESHOLD_CRITICAL ≤ eur →
      (process_trade rates s t true now).1 =
        some { alert_type := "LargeTrade", severity := "critical"
               timestamp := now, trade_id := some t.dissemination_identifier
               strategy_id := none, notional_eur := some eur }) ∧
    (THRESHOLD_HIGH ≤ eur → eur < THRESHOLD_CRITICAL →
      (process_trade rates s t true now).1 =
        some { alert_type := "LargeTrade", severity := "high"
               timestamp := now, trade_id := some t.dissemination_identifier
               strategy_id := none, notional_eur := some eur }) ∧
    (THRESHOLD_MEDIUM ≤ eur → eur < THRESHOLD_HIGH →
      (process_trade rates s t true now).1 =
        some { alert_type := "LargeTrade", severity := "medium"
               timestamp := now, trade_id := some t.dissemination_identifier
               strategy_id := none, notional_eur := some eur }) ∧
    (eur < THRESHOLD_MEDIUM →
      (process_trade rates s t true now).1 = none ∧
      (process_trade rates s t true now).2.2.alerted_trade_ids =
        s.alerted_trade_ids ++ [t.dissemination_identifier]) := by
  refine ⟨fun h1 => ?_, fun h1 h2 => ?_, fun h1 h2 => ?_, fun h1 => ?_⟩
  · simp [process_trade, hid, hconv, severityFor_critical eur h1]
  · simp [process_trade, hid, hconv, severityFor_high eur h2 h1]
  · simp [process_trade, hid, hconv, severityFor_medium eur h2 h1]
  · constructor <;> simp [process_trade, hid, hconv, severityFor_below eur h1]

/-- Witness for C5 at the exact medium boundary: a 500,000,000 EUR
trade yields a medium LargeTrade alert. -/
theorem large_trade_threshold_ladder_witness :
    (process_trade (fun _ => none) AlertEngineState.init wMediumTrade true 0).1 =
      some { alert_type := "LargeTrade", severity := "medium", timestamp := 0
             trade_id := some "T0", strategy_id := none
             notional_eur := some 500000000 } :=
  (large_trade_threshold_ladder (fun _ => none) AlertEngineState.init
      wMediumTrade 0 500000000 (by decide) (by with_unfolding_all rfl)).2.2.1
    (by norm_num [THRESHOLD_MEDIUM])
    (by norm_num [THRESHOLD_MEDIUM, THRESHOLD_HIGH])

/-- C4 (code bug): `detect_strategies` is not total.  A package trade
P1 is claimed by the package rule (the create branch completes — the
constructor discards extra kwargs); when non-package trade B with the
same underlying and a second maturity arrives one second later, the
custom rule finds P1 mapped to a strategy id that is not a key of
`custom_strategies`, and `self.custom_strategies[existing_strategy_id]`
(line 205) raises KeyError before any undeclared-attribute line. -/
theorem detect_strategies_raises_keyerror :
    (detectSeq DetectorState.init [([kTradeP1], 0), ([kTradeB], 1)]).2 =
      some ("KeyError: " ++ "PKG_0") := by
  with_unfolding_all rfl

/-- C2 (code bug): in tick 2 the custom rule's update branch absorbs
the package trade P into CUST_0's legs (lines 206-208) before line 215
raises the ValueError, and both mutations persist in the detector
object — afterwards P's id sits in the legs of a package strategy and
of a custom strategy at once, so the legs lists are not pairwise
disjoint. -/
theorem trade_in_package_and_custom_strategy :
    tradeInTwoStrategiesCheck "P" = true := by
  with_unfolding_all rfl

/-- Counterexample to C3 as stated: the second leg Q2 joins package
strategy "Y" (lines 119-123), after which the stored strategy's legs
are [Q1, Q2] whose notionals sum to 300 EUR, yet `total_notional_eur`
is still 100 — the package update path never recomputes the total and
then raises at line 127, leaving exactly this state behind. -/
theorem package_leg_addition_keeps_stale_total : staleTotalCheck = true := by
  with_unfolding_all rfl

/-- Lookup of a just-stored key returns the stored value. -/
lemma alistLookup_insert_self {α : Type} (k : String) (v : α)
    (l : List (String × α)) : alistLookup k (alistInsert k v l) = some v := by
  induction l with
  | nil => simp [alistInsert, alistLookup]
  | cons p rest ih =>
    by_cases hp : p.1 = k
    · simp [alistInsert, alistLookup, hp]
    · simp [alistInsert, alistLookup, hp, ih]

/-- C3 amended: when the custom rule adds legs to an existing
strategy, the stored strategy's `total_notional_eur` is recomputed as
the sum of the detected group's `notional_eur` values (null as 0) and
its `execution_end` becomes the max group timestamp; when the package
rule adds a leg, the stored strategy's `execution_end` is updated to
the max of the old value and the new leg's timestamp but
`total_notional_eur` is left unchanged.  In both update paths the
subsequent instrument re-derivation raises ValueError (models.py's
`Strategy` declares no `instrument_pair` field), so the call aborts
with exactly these mutations persisted. -/
theorem leg_addition_update_effects
    (st1 : DetectorState) (strat : Strategy) (trade : Trade) (pk : String)
    (pts : List Trade)
    (hpkg : alistLookup pk st1.package_strategies = some strat)
    (hnewt : trade.action_type = "NEWT")
    (hleg : trade.dissemination_identifier ∉ strat.legs)
    (st2 : DetectorState) (u : String) (group : List Trade)
    (acc : List Strategy) (esid : String) (cstrat : Strategy)
    (hlen : 2 ≤ group.length)
    (hmat : 2 ≤ (distinctMaturities group).length)
    (hwin : listMax (group.map (·.execution_timestamp)) -
      listMin (group.map (·.execution_timestamp)) ≤ STRATEGY_TIME_WINDOW)
    (hex : ((group.map (·.dissemination_identifier)).eraseDups).findSome?
      (fun tid => alistLookup tid st2.trade_to_strategy) = some esid)
    (hcust : alistLookup esid st2.custom_strategies = some cstrat) :
    ((detectPackageStrategy st1 trade pk pts).2 = .error noFieldError ∧
      ∃ strat1, alistLookup pk
          (detectPackageStrategy st1 trade pk pts).1.package_strategies =
          some strat1 ∧
        strat1.legs = strat.legs ++ [trade.dissemination_identifier] ∧
        strat1.execution_end =
          max strat.execution_end trade.execution_timestamp ∧
        strat1.total_notional_eur = strat.total_notional_eur) ∧
    (∃ st' strat',
      customGroupStep u group (acc, st2) = ((acc, st'), some noFieldError) ∧
      alistLookup esid st'.custom_strategies = some strat' ∧
      strat'.total_notional_eur =
        (group.map (fun t => t.notional_eur.getD 0)).sum ∧
      strat'.execution_end = listMax (group.map (·.execution_timestamp)) ∧
      strat'.legs = group.foldl (fun ls t =>
        if t.dissemination_identifier ∈ ls then ls
        else ls ++ [t.dissemination_identifier]) cstrat.legs) := by
  constructor
  · have hres : detectPackageStrategy st1 trade pk pts =
        ({ st1 with
            package_strategies := alistInsert pk
              { strat with
                legs := strat.legs ++ [trade.dissemination_identifier]
                execution_end :=
                  max strat.execution_end trade.execution_timestamp }
              st1.package_strategies
            trade_to_strategy := alistInsert trade.dissemination_identifier
              strat.strategy_id st1.trade_to_strategy },
         .error noFieldError) := by
      simp [detectPackageStrategy, hpkg, hnewt, hleg]
    refine ⟨by rw [hres], ?_⟩
    refine ⟨{ strat with
        legs := strat.legs ++ [trade.dissemination_identifier]
        execution_end := max strat.execution_end trade.execution_timestamp },
      ?_, rfl, rfl, rfl⟩
    rw [hres]
    exact alistLookup_insert_self pk _ _
  · have hstep : customGroupStep u group (acc, st2) =
        ((acc, { st2 with custom_strategies := alistInsert esid (customUpdatedStrategy cstrat group) st2.custom_strategies }),
         some noFieldError) := by
      simp [customGroupStep, not_lt.mpr hlen, not_lt.mpr hmat, hwin, hex, hcust]
    exact ⟨_, customUpdatedStrategy cstrat group, hstep,
      alistLookup_insert_self esid _ _, rfl, rfl, rfl⟩

/-- Witness for the amended C3: leg Q2 joins package strategy "Y"
(total unchanged at 100) before the raise, and trade C is absorbed
into custom strategy CUST_0 with the group total and max group
timestamp before the raise. -/
theorem leg_addition_update_effects_witness :
    ((detectPackageStrategy wPkgState dTradeQ2 "Y" []).2 =
        .error noFieldError ∧
      ∃ strat1, alistLookup "Y"
          (detectPackageStrategy wPkgState dTradeQ2 "Y" []).1.package_strategies
          = some strat1 ∧
        strat1.legs = wPkgStrat.legs ++ [dTradeQ2.dissemination_identifier] ∧
        strat1.execution_end =
          max wPkgStrat.execution_end dTradeQ2.execution_timestamp ∧
        strat1.total_notional_eur = wPkgStrat.total_notional_eur) ∧
    (∃ st' strat',
      customGroupStep "EUR-EURIBOR" [cTradeA, wGroupC] ([], wCustState) =
        (([], st'), some noFieldError) ∧
      alistLookup "CUST_0" st'.custom_strategies = some strat' ∧
      strat'.total_notional_eur =
        ([cTradeA, wGroupC].map (fun t => t.notional_eur.getD 0)).sum ∧
      strat'.execution_end =
        listMax ([cTradeA, wGroupC].map (·.execution_timestamp)) ∧
      strat'.legs = [cTradeA, wGroupC].foldl (fun ls t =>
        if t.dissemination_identifier ∈ ls then ls
        else ls ++ [t.dissemination_identifier]) wCustStrat.legs) :=
  leg_addition_update_effects wPkgState wPkgStrat dTradeQ2 "Y" []
    (by with_unfolding_all decide) (by with_unfolding_all decide)
    (by with_unfolding_all decide)
    wCustState "EUR-EURIBOR" [cTradeA, wGroupC] [] "CUST_0" wCustStrat
    (by with_unfolding_all decide) (by with_unfolding_all decide)
    (by with_unfolding_all decide) (by with_unfolding_all decide)
    (by with_unfolding_all decide)

/-- A `process_trade` call leaves `alerted_trade_ids` unchanged or
appends the processed trade's own id. -/
lemma process_trade_alerted_ids (rates : String → Option ℚ)
    (s : AlertEngineState) (t : Trade) (b : Bool) (now : ℚ) :
    (process_trade rates s t b now).2.2.alerted_trade_ids =
        s.alerted_trade_ids ∨
      (process_trade rates s t b now).2.2.alerted_trade_ids =
        s.alerted_trade_ids ++ [t.dissemination_identifier] := by
  unfold process_trade
  split
  · exact Or.inl rfl
  · split
    · exact Or.inl rfl
    · split
      · exact Or.inl rfl
      · split
        · exact Or.inr rfl
        · exact Or.inr rfl

/-- A `process_trade` call never touches `alerted_strategy_ids`. -/
lemma process_trade_strategy_ids (rates : String → Option ℚ)
    (s : AlertEngineState) (t : Trade) (b : Bool) (now : ℚ) :
    (process_trade rates s t b now).2.2.alerted_strategy_ids =
      s.alerted_strategy_ids := by
  unfold process_trade
  split
  · rfl
  · split
    · rfl
    · split
      · rfl
      · split
        · rfl
        · rfl

/-- A `process_strategy` call leaves `alerted_strategy_ids` unchanged
or appends the processed strategy's own id. -/
lemma process_strategy_alerted_ids (s : AlertEngineState) (strat : Strategy)
    (b : Bool) (now : ℚ) :
    (process_strategy s strat b now).2.alerted_strategy_ids =
        s.alerted_strategy_ids ∨
      (process_strategy s strat b now).2.alerted_strategy_ids =
        s.alerted_strategy_ids ++ [strat.strategy_id] := by
  unfold process_strategy
  split
  · exact Or.inl rfl
  · split
    · exact Or.inl rfl
    · split
      · exact Or.inl rfl
      · exact Or.inr rfl

/-- A `process_strategy` call never touches `alerted_trade_ids`. -/
lemma process_strategy_trade_ids (s : AlertEngineState) (strat : Strategy)
    (b : Bool) (now : ℚ) :
    (process_strategy s strat b now).2.alerted_trade_ids =
      s.alerted_trade_ids := by
  unfold process_strategy
  split
  · rfl
  · split
    · rfl
    · split
      · rfl
      · rfl

/-- When `process_trade` emits an alert, it is a LargeTrade alert for
the processed trade's id, that id was not yet evaluated, and it is
appended to the evaluated set. -/
lemma process_trade_emits (rates : String → Option ℚ) (s : AlertEngineState)
    (t : Trade) (b : Bool) (now : ℚ) (a : Alert)
    (h : (process_trade rates s t b now).1 = some a) :
    a.alert_type = "LargeTrade" ∧
    a.trade_id = some t.dissemination_identifier ∧
    t.dissemination_identifier ∉ s.alerted_trade_ids ∧
    (process_trade rates s t b now).2.2.alerted_trade_ids =
      s.alerted_trade_ids ++ [t.dissemination_identifier] := by
  by_cases hmem : t.dissemination_identifier ∈ s.alerted_trade_ids
  · exfalso
    simp [process_trade, hmem] at h
  · cases b with
    | false =>
      exfalso
      simp [process_trade, hmem] at h
    | true =>
      rcases hc : convertTradeToEur rates t with _ | eur
      · exfalso
        simp [process_trade, hmem, hc] at h
      · rcases hs : severityFor eur with _ | sev
        · exfalso
          simp [process_trade, hmem, hc, hs] at h
        · have ha : a =
              { alert_type := "LargeTrade", severity := sev, timestamp := now
                trade_id := some t.dissemination_identifier
                strategy_id := none, notional_eur := some eur } := by
            simp [process_trade, hmem, hc, hs] at h
            exact h.symm
          refine ⟨?_, ?_, hmem, ?_⟩
          · rw [ha]
          · rw [ha]
          · simp [process_trade, hmem, hc, hs]

/-- When `process_strategy` emits an alert, it is a StrategyPackage
alert for the processed strategy's id, that id was not yet evaluated,
and it is appended to the evaluated set. -/
lemma process_strategy_emits (s : AlertEngineState) (strat : Strategy)
    (b : Bool) (now : ℚ) (a : Alert)
    (h : (process_strategy s strat b now).1 = some a) :
    a.alert_type = "StrategyPackage" ∧
    a.strategy_id = some strat.strategy_id ∧
    strat.strategy_id ∉ s.alerted_strategy_ids ∧
    (process_strategy s strat b now).2.alerted_strategy_ids =
      s.alerted_strategy_ids ++ [strat.strategy_id] := by
  cases b with
  | false =>
    exfalso
    simp [process_strategy] at h
  | true =>
    by_cases hmem : strat.strategy_id ∈ s.alerted_strategy_ids
    · exfalso
      simp [process_strategy, hmem] at h
    · rcases hs : severityFor strat.total_notional_eur with _ | sev
      · exfalso
        simp [process_strategy, hmem, hs] at h
      · have ha : a =
            { alert_type := "StrategyPackage", severity := sev, timestamp := now
              trade_id := none, strategy_id := some strat.strategy_id
              notional_eur := some strat.total_notional_eur } := by
          simp [process_strategy, hmem, hs] at h
          exact h.symm
        refine ⟨?_, ?_, hmem, ?_⟩
        · rw [ha]
        · rw [ha]
        · simp [process_strategy, hmem, hs]

/-- Engine steps never remove a trade id from the evaluated set. -/
lemma engineStep_trade_mono (rates : String → Option ℚ)
    (s : AlertEngineState) (e : EngineEvent) (d : String)
    (h : d ∈ s.alerted_trade_ids) :
    d ∈ (engineStep rates s e).2.alerted_trade_ids := by
  cases e with
  | trade t b now =>
    rcases process_trade_alerted_ids rates s t b now with h' | h'
    · show d ∈ (process_trade rates s t b now).2.2.alerted_trade_ids
      rw [h']
      exact h
    · show d ∈ (process_trade rates s t b now).2.2.alerted_trade_ids
      rw [h']
      exact List.mem_append_left _ h
  | strategy strat b now =>
    show d ∈ (process_strategy s strat b now).2.alerted_trade_ids
    rw [process_strategy_trade_ids]
    exact h

/-- Engine steps never remove a strategy id from the evaluated set. -/
lemma engineStep_strategy_mono (rates : String → Option ℚ)
    (s : AlertEngineState) (e : EngineEvent) (sid : String)
    (h : sid ∈ s.alerted_strategy_ids) :
    sid ∈ (engineStep rates s e).2.alerted_strategy_ids := by
  cases e with
  | trade t b now =>
    show sid ∈ (process_trade rates s t b now).2.2.alerted_strategy_ids
    rw [process_trade_strategy_ids]
    exact h
  | strategy strat b now =>
    rcases process_strategy_alerted_ids s strat b now with h' | h'
    · show sid ∈ (process_strategy s strat b now).2.alerted_strategy_ids
      rw [h']
      exact h
    · show sid ∈ (process_strategy s strat b now).2.alerted_strategy_ids
      rw [h']
      exact List.mem_append_left _ h

/-- If a step emits a LargeTrade alert for id `d`, then `d` was not in
the evaluated set before and is in it afterwards. -/
lemma engineStep_emits_large (rates : String → Option ℚ)
    (s : AlertEngineState) (e : EngineEvent) (a : Alert) (d : String)
    (h : (engineStep rates s e).1 = some a)
    (ht : a.alert_type = "LargeTrade") (hid : a.trade_id = some d) :
    d ∉ s.alerted_trade_ids ∧
    d ∈ (engineStep rates s e).2.alerted_trade_ids := by
  cases e with
  | trade t b now =>
    obtain ⟨h1, h2, h3, h4⟩ := process_trade_emits rates s t b now a h
    rw [h2] at hid
    obtain rfl : t.dissemination_identifier = d := Option.some.inj hid
    refine ⟨h3, ?_⟩
    show t.dissemination_identifier ∈
      (process_trade rates s t b now).2.2.alerted_trade_ids
    rw [h4]
    exact List.mem_append_right _ (List.mem_singleton.mpr rfl)
  | strategy strat b now =>
    obtain ⟨h1, _, _, _⟩ := process_strategy_emits s strat b now a h
    rw [h1] at ht
    exact absurd ht (by decide)

/-- If a step emits a StrategyPackage alert for id `sid`, then `sid`
was not in the evaluated set before and is in it afterwards. -/
lemma engineStep_emits_strategy (rates : String → Option ℚ)
    (s : AlertEngineState) (e : EngineEvent) (a : Alert) (sid : String)
    (h : (engineStep rates s e).1 = some a)
    (ht : a.alert_type = "StrategyPackage") (hid : a.strategy_id = some sid) :
    sid ∉ s.alerted_strategy_ids ∧
    sid ∈ (engineStep rates s e).2.alerted_strategy_ids := by
  cases e with
  | trade t b now =>
    obtain ⟨h1, _, _, _⟩ := process_trade_emits rates s t b now a h
    rw [h1] at ht
    exact absurd ht (by decide)
  | strategy strat b now =>
    obtain ⟨h1, h2, h3, h4⟩ := process_strategy_emits s strat b now a h
    rw [h2] at hid
    obtain rfl : strat.strategy_id = sid := Option.some.inj hid
    refine ⟨h3, ?_⟩
    show strat.strategy_id ∈
      (process_strategy s strat b now).2.alerted_strategy_ids
    rw [h4]
    exact List.mem_append_right _ (List.mem_singleton.mpr rfl)

/-- One unfolding of `runEngine`. -/
lemma runEngine_cons (rates : String → Option ℚ) (s : AlertEngineState)
    (e : EngineEvent) (rest : List EngineEvent) :
    runEngine rates s (e :: rest) =
      ((engineStep rates s e).1.toList ++
        (runEngine rates (engineStep rates s e).2 rest).1,
       (runEngine rates (engineStep rates s e).2 rest).2) := rfl

/-- Over any run, at most one LargeTrade alert carries trade id `d`,
and none at all once `d` is in the evaluated set. -/
lemma run_large_count (rates : String → Option ℚ) (evs : List EngineEvent) :
    ∀ (s : AlertEngineState) (d : String),
      (d ∈ s.alerted_trade_ids →
        countLargeTradeAlerts d (runEngine rates s evs).1 = 0) ∧
      countLargeTradeAlerts d (runEngine rates s evs).1 ≤ 1 := by
  induction evs with
  | nil =>
    intro s d
    simp [runEngine, countLargeTradeAlerts]
  | cons e rest ih =>
    intro s d
    obtain ⟨ihz, ihle⟩ := ih (engineStep rates s e).2 d
    have hsplit : countLargeTradeAlerts d (runEngine rates s (e :: rest)).1 =
        countLargeTradeAlerts d (engineStep rates s e).1.toList +
        countLargeTradeAlerts d
          (runEngine rates (engineStep rates s e).2 rest).1 := by
      rw [runEngine_cons]
      simp [countLargeTradeAlerts, List.countP_append]
    rcases h1 : (engineStep rates s e).1 with _ | a
    · have hemit : countLargeTradeAlerts d (engineStep rates s e).1.toList
          = 0 := by
        rw [h1]
        rfl
      constructor
      · intro hmem
        have hz := ihz (engineStep_trade_mono rates s e d hmem)
        omega
      · omega
    · by_cases hp : a.alert_type = "LargeTrade" ∧ a.trade_id = some d
      · have hemit : countLargeTradeAlerts d (engineStep rates s e).1.toList
            = 1 := by
          rw [h1]
          simp [countLargeTradeAlerts, hp.1, hp.2]
        obtain ⟨hnot, hin⟩ :=
          engineStep_emits_large rates s e a d h1 hp.1 hp.2
        have hz := ihz hin
        constructor
        · intro hmem
          exact absurd hmem hnot
        · omega
      · have hemit : countLargeTradeAlerts d (engineStep rates s e).1.toList
            = 0 := by
          rw [h1]
          simp [countLargeTradeAlerts, hp]
        constructor
        · intro hmem
          have hz := ihz (engineStep_trade_mono rates s e d hmem)
          omega
        · omega

/-- Over any run, at most one StrategyPackage alert carries strategy
id `sid`, and none at all once `sid` is in the evaluated set. -/
lemma run_strategy_count (rates : String → Option ℚ)
    (evs : List EngineEvent) :
    ∀ (s : AlertEngineState) (sid : String),
      (sid ∈ s.alerted_strategy_ids →
        countStrategyPackageAlerts sid (runEngine rates s evs).1 = 0) ∧
      countStrategyPackageAlerts sid (runEngine rates s evs).1 ≤ 1 := by
  induction evs with
  | nil =>
    intro s sid
    simp [runEngine, countStrategyPackageAlerts]
  | cons e rest ih =>
    intro s sid
    obtain ⟨ihz, ihle⟩ := ih (engineStep rates s e).2 sid
    have hsplit : countStrategyPackageAlerts sid
          (runEngine rates s (e :: rest)).1 =
        countStrategyPackageAlerts sid (engineStep rates s e).1.toList +
        countStrategyPackageAlerts sid
          (runEngine rates (engineStep rates s e).2 rest).1 := by
      rw [runEngine_cons]
      simp [countStrategyPackageAlerts, List.countP_append]
    rcases h1 : (engineStep rates s e).1 with _ | a
    · have hemit : countStrategyPackageAlerts sid
          (engineStep rates s e).1.toList = 0 := by
        rw [h1]
        rfl
      constructor
      · intro hmem
        have hz := ihz (engineStep_strategy_mono rates s e sid hmem)
        omega
      · omega
    · by_cases hp : a.alert_type = "StrategyPackage" ∧
          a.strategy_id = some sid
      · have hemit : countStrategyPackageAlerts sid
            (engineStep rates s e).1.toList = 1 := by
          rw [h1]
          simp [countStrategyPackageAlerts, hp.1, hp.2]
        obtain ⟨hnot, hin⟩ :=
          engineStep_emits_strategy rates s e a sid h1 hp.1 hp.2
        have hz := ihz hin
        constructor
        · intro hmem
          exact absurd hmem hnot
        · omega
      · have hemit : countStrategyPackageAlerts sid
            (engineStep rates s e).1.toList = 0 := by
          rw [h1]
          simp [countStrategyPackageAlerts, hp]
        constructor
        · intro hmem
          have hz := ihz (engineStep_strategy_mono rates s e sid hmem)
          omega
        · omega

/-- C1: across any sequence of `process_trade` and `process_strategy`
calls from a fresh engine, at most one LargeTrade alert is ever
emitted per trade id and at most one StrategyPackage alert per
strategy id, however often the same trade or strategy is observed. -/
theorem alert_engine_at_most_once_per_id (rates : String → Option ℚ)
    (evs : List EngineEvent) (d sid : String) :
    countLargeTradeAlerts d (runEngine rates AlertEngineState.init evs).1 ≤ 1 ∧
    countStrategyPackageAlerts sid
      (runEngine rates AlertEngineState.init evs).1 ≤ 1 :=
  ⟨(run_large_count rates evs AlertEngineState.init d).2,
   (run_strategy_count rates evs AlertEngineState.init sid).2⟩

/-- Pulling a constant factor out of a mapped sum. -/
lemma list_sum_map_mul_right {α : Type} (l : List α) (f : α → ℚ) (c : ℚ) :
    (l.map (fun x => f x * c)).sum = (l.map f).sum * c := by
  induction l with
  | nil => simp
  | cons a t ih => simp [ih, add_mul]

/-- For nonnegative entries, the sum of squares is at most the squared
sum. -/
lemma sum_sq_le_sq_sum (l : List ℚ) :
    (∀ x ∈ l, 0 ≤ x) → (l.map (fun x => x ^ 2)).sum ≤ l.sum ^ 2 := by
  induction l with
  | nil =>
    intro _
    simp
  | cons a t ih =>
    intro h
    have ha : 0 ≤ a := h a (List.mem_cons_self a t)
    have ht : ∀ x ∈ t, 0 ≤ x := fun x hx => h x (List.mem_cons_of_mem a hx)
    have hS : 0 ≤ t.sum := List.sum_nonneg ht
    have hi := ih ht
    simp only [List.map_cons, List.sum_cons]
    nlinarith [hi, ha, hS]

/-- A nonnegative list with zero sum is all zeros. -/
lemma sum_eq_zero_all_zero (l : List ℚ) (h : ∀ x ∈ l, 0 ≤ x)
    (h0 : l.sum = 0) : ∀ x ∈ l, x = 0 := fun x hx =>
  le_antisymm (h0 ▸ List.single_le_sum h x hx) (h x hx)

/-- If the squared sum is attained, some entry carries the whole sum. -/
lemma sum_sq_eq_imp_exists (l : List ℚ) :
    (∀ x ∈ l, 0 ≤ x) → 0 < l.sum →
    (l.map (fun x => x ^ 2)).sum = l.sum ^ 2 → ∃ x ∈ l, x = l.sum := by
  induction l with
  | nil =>
    intro _ hpos _
    simp at hpos
  | cons a t ih =>
    intro h hpos heq
    have ha : 0 ≤ a := h a (List.mem_cons_self a t)
    have ht : ∀ x ∈ t, 0 ≤ x := fun x hx => h x (List.mem_cons_of_mem a hx)
    have hS : 0 ≤ t.sum := List.sum_nonneg ht
    have hle := sum_sq_le_sq_sum t ht
    simp only [List.map_cons, List.sum_cons] at heq hpos ⊢
    have haS : a * t.sum = 0 := by nlinarith
    rcases mul_eq_zero.mp haS with h0 | h0
    · have hpos' : 0 < t.sum := by
        rw [h0] at hpos
        simpa using hpos
      have heq' : (t.map (fun x => x ^ 2)).sum = t.sum ^ 2 := by
        rw [h0] at heq
        nlinarith [heq]
      obtain ⟨x, hx, hxs⟩ := ih ht hpos' heq'
      exact ⟨x, List.mem_cons_of_mem a hx, by rw [hxs, h0, zero_add]⟩
    · refine ⟨a, List.mem_cons_self a t, ?_⟩
      rw [h0, add_zero]

/-- If some entry carries the whole sum of a nonnegative list, the sum
of squares equals the squared sum. -/
lemma exists_imp_sum_sq_eq (l : List ℚ) :
    (∀ x ∈ l, 0 ≤ x) → ∀ x ∈ l, x = l.sum →
    (l.map (fun x => x ^ 2)).sum = l.sum ^ 2 := by
  induction l with
  | nil =>
    intro _ x hx
    simp at hx
  | cons a t ih =>
    intro h x hx hxs
    have ha : 0 ≤ a := h a (List.mem_cons_self a t)
    have ht : ∀ y ∈ t, 0 ≤ y := fun y hy => h y (List.mem_cons_of_mem a hy)
    have hS : 0 ≤ t.sum := List.sum_nonneg ht
    simp only [List.sum_cons] at hxs
    simp only [List.map_cons, List.sum_cons]
    rcases List.mem_cons.mp hx with rfl | hxt
    · have hS0 : t.sum = 0 := by linarith
      have hall : ∀ y ∈ t, y = 0 := sum_eq_zero_all_zero t ht hS0
      have hM : (t.map (fun y => y ^ 2)).sum = 0 := by
        apply List.sum_eq_zero
        intro y hy
        obtain ⟨z, hz, rfl⟩ := List.mem_map.mp hy
        rw [hall z hz]
        ring
      rw [hM, hS0]
      ring
    · have hxle : x ≤ t.sum := List.single_le_sum ht x hxt
      have ha0 : a = 0 := le_antisymm (by linarith) ha
      have hxs' : x = t.sum := by
        rw [ha0, zero_add] at hxs
        exact hxs
      have hM := ih ht x hxt hxs'
      rw [hM, ha0]
      ring

/-- C9: for nonnegative per-underlying volumes, `calculate_hhi` lies
in [0, 10000], returns 0 for an empty map and for a zero total volume,
and equals 10000 exactly when the total volume is positive and one
entry carries all of it. -/
theorem hhi_bounds_and_concentration (volumes : List (String × ℚ))
    (h : ∀ p ∈ volumes, 0 ≤ p.2) :
    0 ≤ calculate_hhi volumes ∧ calculate_hhi volumes ≤ 10000 ∧
    (volumes = [] → calculate_hhi volumes = 0) ∧
    ((volumes.map (fun p => p.2)).sum = 0 → calculate_hhi volumes = 0) ∧
    (calculate_hhi volumes = 10000 ↔
      0 < (volumes.map (fun p => p.2)).sum ∧
      ∃ p ∈ volumes, p.2 = (volumes.map (fun p => p.2)).sum) := by
  by_cases hnil : volumes = []
  · subst hnil
    norm_num [calculate_hhi]
  · have hval : ∀ x ∈ volumes.map (fun p => p.2), 0 ≤ x := by
      intro x hx
      obtain ⟨p, hp, rfl⟩ := List.mem_map.mp hx
      exact h p hp
    by_cases h0 : (volumes.map (fun p => p.2)).sum = 0
    · have hz : calculate_hhi volumes = 0 := by
        simp [calculate_hhi, hnil, h0]
      rw [hz, h0]
      norm_num
    · have hpos : 0 < (volumes.map (fun p => p.2)).sum :=
        lt_of_le_of_ne (List.sum_nonneg hval) (Ne.symm h0)
      have hsqpos : 0 < (volumes.map (fun p => p.2)).sum ^ 2 := by positivity
      have hcalc : calculate_hhi volumes =
          (((volumes.map (fun p => p.2)).map (fun x => x ^ 2)).sum /
            (volumes.map (fun p => p.2)).sum ^ 2) * 10000 := by
        simp only [calculate_hhi, if_neg hnil, if_neg h0, div_pow,
          div_eq_mul_inv, mul_pow, inv_pow]
        rw [List.map_map]
        conv_rhs => rw [← list_sum_map_mul_right]
        simp [Function.comp]
      have hMnn : 0 ≤ ((volumes.map (fun p => p.2)).map (fun x => x ^ 2)).sum := by
        apply List.sum_nonneg
        intro x hx
        obtain ⟨z, hz, rfl⟩ := List.mem_map.mp hx
        positivity
      have hMle := sum_sq_le_sq_sum (volumes.map (fun p => p.2)) hval
      refine ⟨?_, ?_, fun hn => absurd hn hnil, fun hs => absurd hs h0, ?_⟩
      · rw [hcalc]
        positivity
      · rw [hcalc]
        have hq : ((volumes.map (fun p => p.2)).map (fun x => x ^ 2)).sum /
            (volumes.map (fun p => p.2)).sum ^ 2 ≤ 1 :=
          (div_le_one hsqpos).mpr hMle
        nlinarith [hq]
      · rw [hcalc]
        constructor
        · intro heq
          have hdiv : ((volumes.map (fun p => p.2)).map (fun x => x ^ 2)).sum /
              (volumes.map (fun p => p.2)).sum ^ 2 = 1 :=
            mul_right_cancel₀ (by norm_num : (10000 : ℚ) ≠ 0)
              (by rw [heq, one_mul])
          have hMeq : ((volumes.map (fun p => p.2)).map (fun x => x ^ 2)).sum =
              (volumes.map (fun p => p.2)).sum ^ 2 :=
            (div_eq_one_iff_eq (ne_of_gt hsqpos)).mp hdiv
          obtain ⟨x, hx, hxs⟩ :=
            sum_sq_eq_imp_exists (volumes.map (fun p => p.2)) hval hpos hMeq
          obtain ⟨p, hp, rfl⟩ := List.mem_map.mp hx
          exact ⟨hpos, p, hp, hxs⟩
        · rintro ⟨-, p, hp, hps⟩
          have hMeq := exists_imp_sum_sq_eq (volumes.map (fun p => p.2)) hval
            p.2 (List.mem_map.mpr ⟨p, hp, rfl⟩) hps
          rw [hMeq, div_self (ne_of_gt hsqpos), one_mul]

/-- Witness for C9: volumes A = 3, B = 0 — HHI is within bounds, the
zero cases hold vacuously here, and HHI equals 10000 exactly because
all volume sits on A. -/
theorem hhi_bounds_and_concentration_witness :
    0 ≤ calculate_hhi [("A", (3 : ℚ)), ("B", 0)] ∧
    calculate_hhi [("A", (3 : ℚ)), ("B", 0)] ≤ 10000 ∧
    ([(("A", (3 : ℚ))), ("B", 0)] = [] →
      calculate_hhi [("A", (3 : ℚ)), ("B", 0)] = 0) ∧
    (([("A", (3 : ℚ)), ("B", 0)].map (fun p => p.2)).sum = 0 →
      calculate_hhi [("A", (3 : ℚ)), ("B", 0)] = 0) ∧
    (calculate_hhi [("A", (3 : ℚ)), ("B", 0)] = 10000 ↔
      0 < ([("A", (3 : ℚ)), ("B", 0)].map (fun p => p.2)).sum ∧
      ∃ p ∈ [("A", (3 : ℚ)), ("B", 0)],
        p.2 = ([("A", (3 : ℚ)), ("B", 0)].map (fun p => p.2)).sum) :=
  hhi_bounds_and_concentration [("A", (3 : ℚ)), ("B", 0)]
    (by with_unfolding_all decide)

/-- The dedup filter never accepts a trade whose id was already
seen when the call started. -/
lemma dedupStep_new_not_seen (trades : List Trade) :
    ∀ (seen : List String) (d : String), d ∈ seen →
      ∀ t ∈ (dedupStep seen trades).2, t.dissemination_identifier ≠ d := by
  induction trades with
  | nil =>
    intro seen d _ t ht
    simp [dedupStep] at ht
  | cons t0 rest ih =>
    intro seen d hd t ht
    by_cases h0 : t0.dissemination_identifier ∈ seen
    · rw [dedupStep, if_pos h0] at ht
      exact ih seen d hd t ht
    · rw [dedupStep, if_neg h0] at ht
      rcases List.mem_cons.mp ht with rfl | ht'
      · intro heq
        exact h0 (heq ▸ hd)
      · exact ih (seen ++ [t0.dissemination_identifier]) d
          (List.mem_append_left _ hd) t ht'

/-- Splitting the per-id buffer count over an append. -/
lemma countTradeId_append (d : String) (l1 l2 : List Trade) :
    countTradeId d (l1 ++ l2) = countTradeId d l1 + countTradeId d l2 := by
  simp [countTradeId, List.countP_append]

/-- A buffer with no entry for `d` counts zero. -/
lemma countTradeId_eq_zero (d : String) (l : List Trade)
    (h : ∀ t ∈ l, t.dissemination_identifier ≠ d) : countTradeId d l = 0 := by
  rw [countTradeId, List.countP_eq_zero]
  intro t ht
  simpa using h t ht

/-- Dropping a prefix cannot increase the per-id buffer count. -/
lemma countTradeId_drop_le (d : String) (n : Nat) (l : List Trade) :
    countTradeId d (l.drop n) ≤ countTradeId d l :=
  (List.drop_sublist n l).countP_le _

/-- Eviction only ever shrinks the buffer (it keeps a suffix). -/
lemma evictStep_count_le (b : List Trade) (s : List String) (d : String) :
    countTradeId d (evictStep b s).1 ≤ countTradeId d b := by
  unfold evictStep
  split
  · exact countTradeId_drop_le d _ b
  · exact le_refl _

/-- Over capacity, eviction drops exactly the oldest `length - max`
trades and removes exactly their ids from the seen set. -/
lemma evictStep_over (b : List Trade) (s : List String)
    (h : MAX_TRADES_IN_BUFFER < b.length) :
    evictStep b s =
      (b.drop (b.length - MAX_TRADES_IN_BUFFER),
       s.filter (fun i => i ∉ (b.take (b.length - MAX_TRADES_IN_BUFFER)).map
         (·.dissemination_identifier))) := by
  unfold evictStep
  rw [if_pos h]

/-- C6: re-ingesting a seen trade id never adds a buffer entry for it;
when the merged buffer exceeds 1000 entries, exactly the oldest
`length - 1000` trades are dropped and exactly their ids leave the
seen set; and the alert-engine state after the call (in particular the
alerted-trade-id set) does not depend on the buffer at all — eviction
cannot disturb it. -/
theorem ledger_dedup_eviction_frame (rates : String → Option ℚ)
    (ms : MainState) (trades : List Trade) (now : ℚ) (d : String)
    (hseen : d ∈ ms.seen_trade_ids) :
    countTradeId d (process_trades_main rates ms trades now).1.trade_buffer ≤
      countTradeId d ms.trade_buffer ∧
    ((dedupStep ms.seen_trade_ids trades).2 ≠ [] →
      MAX_TRADES_IN_BUFFER <
        (ms.trade_buffer ++ (dedupStep ms.seen_trade_ids trades).2).length →
      (process_trades_main rates ms trades now).1.trade_buffer =
        (ms.trade_buffer ++ (dedupStep ms.seen_trade_ids trades).2).drop
          ((ms.trade_buffer ++ (dedupStep ms.seen_trade_ids trades).2).length
            - MAX_TRADES_IN_BUFFER) ∧
      (process_trades_main rates ms trades now).1.seen_trade_ids =
        (dedupStep ms.seen_trade_ids trades).1.filter (fun i =>
          i ∉ ((ms.trade_buffer ++
              (dedupStep ms.seen_trade_ids trades).2).take
            ((ms.trade_buffer ++ (dedupStep ms.seen_trade_ids trades).2).length
              - MAX_TRADES_IN_BUFFER)).map (·.dissemination_identifier))) ∧
    (∀ buf' : List Trade,
      (process_trades_main rates { ms with trade_buffer := buf' }
          trades now).1.engine =
        (process_trades_main rates ms trades now).1.engine) := by
  by_cases htr : trades = []
  · subst htr
    refine ⟨le_refl _, ?_, ?_⟩
    · intro hne
      exact absurd rfl hne
    · intro buf'
      rfl
  · by_cases hnew : (dedupStep ms.seen_trade_ids trades).2 = []
    · have hres : process_trades_main rates ms trades now =
          ({ ms with seen_trade_ids := (dedupStep ms.seen_trade_ids trades).1 },
           []) := by
        simp [process_trades_main, htr, hnew]
      refine ⟨?_, ?_, ?_⟩
      · rw [hres]
      · intro hne
        exact absurd hnew hne
      · intro buf'
        have hres' : process_trades_main rates
            { ms with trade_buffer := buf' } trades now =
            ({ ms with
                trade_buffer := buf'
                seen_trade_ids := (dedupStep ms.seen_trade_ids trades).1 },
             []) := by
          simp [process_trades_main, htr, hnew]
        rw [hres, hres']
    · have hzero : countTradeId d (dedupStep ms.seen_trade_ids trades).2 = 0 :=
        countTradeId_eq_zero d _
          (dedupStep_new_not_seen trades ms.seen_trade_ids d hseen)
      have hres : process_trades_main rates ms trades now =
          ({ seen_trade_ids :=
              (evictStep (ms.trade_buffer ++
                (dedupStep ms.seen_trade_ids trades).2)
                (dedupStep ms.seen_trade_ids trades).1).2
             trade_buffer :=
              (evictStep (ms.trade_buffer ++
                (dedupStep ms.seen_trade_ids trades).2)
                (dedupStep ms.seen_trade_ids trades).1).1
             engine :=
              (alertLoop rates ms.engine
                (dedupStep ms.seen_trade_ids trades).2 now).1 },
           (alertLoop rates ms.engine
             (dedupStep ms.seen_trade_ids trades).2 now).2) := by
        simp [process_trades_main, htr, hnew]
      refine ⟨?_, ?_, ?_⟩
      · rw [hres]
        refine le_trans (evictStep_count_le _ _ d) ?_
        rw [countTradeId_append, hzero, Nat.add_zero]
      · intro hne hover
        rw [hres]
        constructor
        · show (evictStep _ _).1 = _
          rw [evictStep_over _ _ hover]
        · show (evictStep _ _).2 = _
          rw [evictStep_over _ _ hover]
      · intro buf'
        have hres' : process_trades_main rates
            { ms with trade_buffer := buf' } trades now =
            ({ seen_trade_ids :=
                (evictStep (buf' ++ (dedupStep ms.seen_trade_ids trades).2)
                  (dedupStep ms.seen_trade_ids trades).1).2
               trade_buffer :=
                (evictStep (buf' ++ (dedupStep ms.seen_trade_ids trades).2)
                  (dedupStep ms.seen_trade_ids trades).1).1
               engine :=
                (alertLoop rates ms.engine
                  (dedupStep ms.seen_trade_ids trades).2 now).1 },
             (alertLoop rates ms.engine
               (dedupStep ms.seen_trade_ids trades).2 now).2) := by
          simp [process_trades_main, htr, hnew]
        rw [hres, hres']

/-- Witness for C6: the ledger has already seen id "D"; re-ingesting
the same trade adds no second buffer entry, and the engine result is
buffer-independent. -/
theorem ledger_dedup_eviction_frame_witness :
    countTradeId "D" (process_trades_main (fun _ => none) wMainState
        [wDupTrade] 0).1.trade_buffer ≤
      countTradeId "D" wMainState.trade_buffer ∧
    ((dedupStep wMainState.seen_trade_ids [wDupTrade]).2 ≠ [] →
      MAX_TRADES_IN_BUFFER <
        (wMainState.trade_buffer ++
          (dedupStep wMainState.seen_trade_ids [wDupTrade]).2).length →
      (process_trades_main (fun _ => none) wMainState
          [wDupTrade] 0).1.trade_buffer =
        (wMainState.trade_buffer ++
          (dedupStep wMainState.seen_trade_ids [wDupTrade]).2).drop
          ((wMainState.trade_buffer ++
            (dedupStep wMainState.seen_trade_ids [wDupTrade]).2).length
            - MAX_TRADES_IN_BUFFER) ∧
      (process_trades_main (fun _ => none) wMainState
          [wDupTrade] 0).1.seen_trade_ids =
        (dedupStep wMainState.seen_trade_ids [wDupTrade]).1.filter (fun i =>
          i ∉ ((wMainState.trade_buffer ++
              (dedupStep wMainState.seen_trade_ids [wDupTrade]).2).take
            ((wMainState.trade_buffer ++
              (dedupStep wMainState.seen_trade_ids [wDupTrade]).2).length
              - MAX_TRADES_IN_BUFFER)).map (·.dissemination_identifier))) ∧
    (∀ buf' : List Trade,
      (process_trades_main (fun _ => none)
          { wMainState with trade_buffer := buf' } [wDupTrade] 0).1.engine =
        (process_trades_main (fun _ => none) wMainState
          [wDupTrade] 0).1.engine) :=
  ledger_dedup_eviction_frame (fun _ => none) wMainState [wDupTrade] 0 "D"
    (by decide)

end PublicTrade
